import Mathlib

/-!
Local Event Finder: the event-search proxy boundary.

A shallow embedding of

* `local-event-finder/server.js`: the Express route `GET /events`,
* `local-event-finder/app/(tabs)/index.tsx`: the client `fetchEvents` and the
  `WebMap` marker rule,
* `local-event-finder/app.js`: the stand-alone client `fetchEvents` and its
  marker rule,

together with the parts of the JavaScript library semantics those files rely on
(truthiness, `new Date(string).toISOString()`, `parseFloat`, the settle rule of
`axios.get`, the resolve rule of `fetch`).

Conventions.

* A possibly `undefined` JavaScript string is an `Option String`.
* Time values are integral milliseconds since the epoch (`Int`); `none` is the
  time value `NaN` of an invalid `Date`.
* Network peers are oracles: a function from the outbound request to what the
  peer answers.  A run of a handler returns the requests it issued, in order.
* `console.log` / `console.error` output is not part of the model.
-/

namespace EventFinder

/-! ## JavaScript values -/

/-- A JSON value, as `JSON.parse` delivers it.  Numbers are integral in this model:
the code under study only tests a payload number for truthiness. -/
inductive Json where
  | null : Json
  | bool (b : Bool) : Json
  | num (n : Int) : Json
  | str (s : String) : Json
  | arr (items : List Json) : Json
  | obj (fields : List (String × Json)) : Json

/-- JavaScript truthiness (`ToBoolean`) of a JSON value. -/
def Json.truthy : Json → Bool
  | .null => false
  | .bool b => b
  | .num n => decide (n ≠ 0)
  | .str s => decide (s ≠ "")
  | .arr _ => true
  | .obj _ => true

/-- JavaScript truthiness of a possibly `undefined` string. -/
def truthy : Option String → Bool
  | none => false
  | some s => decide (s ≠ "")

/-- A thrown JavaScript error, as the `catch` clause of the route reads it: its
`message`, and `response?.data` when the error carries an HTTP response. -/
structure JsError where
  message : String
  responseData : Option Json

/-! ## ECMAScript dates (ECMA-262, "Time Values and Time Range") -/

/-- Milliseconds per day. -/
def msPerDay : Int := 86400000

/-- ECMA-262 `Day(t) = floor(t / msPerDay)`. -/
def Day (t : Int) : Int := t / msPerDay

/-- ECMA-262 `TimeWithinDay(t) = t modulo msPerDay`. -/
def TimeWithinDay (t : Int) : Int := t % msPerDay

/-- ECMA-262 `DaysInYear(y)`. -/
def DaysInYear (y : Int) : Int :=
  if y % 4 ≠ 0 then 365
  else if y % 100 ≠ 0 then 366
  else if y % 400 ≠ 0 then 365
  else 366

/-- ECMA-262 `DayFromYear(y)`: the day number of the first day of year `y`. -/
def DayFromYear (y : Int) : Int :=
  365 * (y - 1970) + (y - 1969) / 4 - (y - 1901) / 100 + (y - 1601) / 400

/-- ECMA-262 `TimeFromYear(y)`. -/
def TimeFromYear (y : Int) : Int := msPerDay * DayFromYear y

/-- The year containing day number `d`: the largest `y` with `DayFromYear y ≤ d`.
Computed from the mean Gregorian year (146097 days per 400 years) and corrected by
at most one year in either direction. -/
def yearFromDay (d : Int) : Int :=
  let y0 := 1970 + (400 * d) / 146097
  if d < DayFromYear y0 then y0 - 1
  else if DayFromYear (y0 + 1) ≤ d then y0 + 1
  else y0

/-- ECMA-262 `YearFromTime(t)`: the largest `y` such that `TimeFromYear y ≤ t`. -/
def YearFromTime (t : Int) : Int := yearFromDay (Day t)

/-- ECMA-262 `InLeapYear(t)`, as a number of extra days (0 or 1). -/
def leapDays (y : Int) : Int := if DaysInYear y = 366 then 1 else 0

/-- ECMA-262 `InLeapYear(t)`. -/
def InLeapYear (t : Int) : Int := leapDays (YearFromTime t)

/-- ECMA-262 `DayWithinYear(t)`. -/
def DayWithinYear (t : Int) : Int := Day t - DayFromYear (YearFromTime t)

/-- The table of ECMA-262 `MonthFromTime`, on a day within the year `dwy`
and the leap indicator `lp`: a month number 0..11. -/
def monthFromDayWithinYear (dwy lp : Int) : Int :=
  if dwy < 31 then 0
  else if dwy < 59 + lp then 1
  else if dwy < 90 + lp then 2
  else if dwy < 120 + lp then 3
  else if dwy < 151 + lp then 4
  else if dwy < 181 + lp then 5
  else if dwy < 212 + lp then 6
  else if dwy < 243 + lp then 7
  else if dwy < 273 + lp then 8
  else if dwy < 304 + lp then 9
  else if dwy < 334 + lp then 10
  else 11

/-- ECMA-262 `MonthFromTime(t)`. -/
def MonthFromTime (t : Int) : Int :=
  monthFromDayWithinYear (DayWithinYear t) (InLeapYear t)

/-- Day within the year of the first day of month `mn` (0..11). -/
def monthStart (mn lp : Int) : Int :=
  if mn = 0 then 0
  else if mn = 1 then 31
  else if mn = 2 then 59 + lp
  else if mn = 3 then 90 + lp
  else if mn = 4 then 120 + lp
  else if mn = 5 then 151 + lp
  else if mn = 6 then 181 + lp
  else if mn = 7 then 212 + lp
  else if mn = 8 then 243 + lp
  else if mn = 9 then 273 + lp
  else if mn = 10 then 304 + lp
  else 334 + lp

/-- ECMA-262 `DateFromTime(t)`: the day of the month, 1..31. -/
def DateFromTime (t : Int) : Int :=
  DayWithinYear t - monthStart (MonthFromTime t) (InLeapYear t) + 1

/-- ECMA-262 `HourFromTime(t)`. -/
def HourFromTime (t : Int) : Int := (t / 3600000) % 24

/-- ECMA-262 `MinFromTime(t)`. -/
def MinFromTime (t : Int) : Int := (t / 60000) % 60

/-- ECMA-262 `SecFromTime(t)`. -/
def SecFromTime (t : Int) : Int := (t / 1000) % 60

/-- ECMA-262 `msFromTime(t)`. -/
def msFromTime (t : Int) : Int := t % 1000

/-- ECMA-262 `MakeDay(year, month, date)` on integral arguments: the day number of
day `date` of month `month` (0-based, carried into the year) of year `year`. -/
def MakeDay (year month date : Int) : Int :=
  let ym := year + month / 12
  let mn := month % 12
  DayFromYear ym + monthStart mn (leapDays ym) + date - 1

/-- ECMA-262 `MakeDate(day, time)`. -/
def MakeDate (day time : Int) : Int := day * msPerDay + time

/-- ECMA-262 `TimeClip`: a time value further than 8.64e15 ms from the epoch
is `NaN`. -/
def TimeClip (t : Int) : Option Int :=
  if t.natAbs ≤ 8640000000000000 then some t else none

/-- Number of days of month `m` (1..12) of year `y`. -/
def daysInMonth (y m : Nat) : Nat :=
  if m = 2 then (if DaysInYear (y : Int) = 366 then 29 else 28)
  else if m = 4 ∨ m = 6 ∨ m = 9 ∨ m = 11 then 30
  else 31

/-! ### Decimal digits -/

/-- The decimal digit character of `n % 10`. -/
def digitChar (n : Nat) : Char := Char.ofNat (48 + n % 10)

/-- The value of a decimal digit character. -/
def digitVal (c : Char) : Option Nat :=
  if 48 ≤ c.toNat ∧ c.toNat ≤ 57 then some (c.toNat - 48) else none

/-- Two decimal digits, zero padded. -/
def pad2 (n : Nat) : List Char := [digitChar (n / 10), digitChar n]

/-- Three decimal digits, zero padded. -/
def pad3 (n : Nat) : List Char := [digitChar (n / 100), digitChar (n / 10), digitChar n]

/-- Four decimal digits, zero padded. -/
def pad4 (n : Nat) : List Char :=
  [digitChar (n / 1000), digitChar (n / 100), digitChar (n / 10), digitChar n]

/-- Six decimal digits, zero padded. -/
def pad6 (n : Nat) : List Char :=
  [digitChar (n / 100000), digitChar (n / 10000), digitChar (n / 1000),
   digitChar (n / 100), digitChar (n / 10), digitChar n]

/-- The date-only form `YYYY-MM-DD` of the ECMA-262 date-time string format. -/
def isoDate (y m d : Nat) : String :=
  String.mk (pad4 y ++ '-' :: pad2 m ++ '-' :: pad2 d)

/-- Reads the date-only form `YYYY-MM-DD` of the ECMA-262 date-time string format:
four digits, two digits 01..12, two digits naming a day of that month.  A date-only
form is interpreted as a UTC time. -/
def parseISODateOnly (s : String) : Option Int :=
  match s.data with
  | [y1, y2, y3, y4, h1, m1, m2, h2, d1, d2] =>
    match digitVal y1, digitVal y2, digitVal y3, digitVal y4,
          digitVal m1, digitVal m2, digitVal d1, digitVal d2 with
    | some a, some b, some c, some d, some e, some f, some g, some h =>
      let y := 1000 * a + 100 * b + 10 * c + d
      let m := 10 * e + f
      let dd := 10 * g + h
      if h1 = '-' ∧ h2 = '-' ∧ 1 ≤ m ∧ m ≤ 12 ∧ 1 ≤ dd ∧ dd ≤ daysInMonth y m then
        some (MakeDate (MakeDay y ((m : Int) - 1) dd) 0)
      else none
    | _, _, _, _, _, _, _, _ => none
  | _ => none

/-- The function `Date.parse` applied to a string, followed by the `TimeClip` of the
`Date` constructor.  A string in the date-only form is read by `parseISODateOnly`;
for every other string ECMA-262 leaves the result to the other forms of the format
and to implementation-specific heuristics, here the argument `legacy`. -/
def dateFromString (legacy : String → Option Int) (s : String) : Option Int :=
  match parseISODateOnly s with
  | some t => TimeClip t
  | none => (legacy s).bind TimeClip

/-- The heuristics of the V8 engine (Node) on a text of the shape `YYYY-MM-DD`: the
month must be 01..12 and the day 01..31, whatever the month, and a day past the end
of the month is carried into the next month by `MakeDay`.  Every other text is left
unread here (`NaN`).  This is one possible value of the argument `legacy` of
`dateFromString`. -/
def lenientDateOnly (s : String) : Option Int :=
  match s.data with
  | [y1, y2, y3, y4, h1, m1, m2, h2, d1, d2] =>
    match digitVal y1, digitVal y2, digitVal y3, digitVal y4,
          digitVal m1, digitVal m2, digitVal d1, digitVal d2 with
    | some a, some b, some c, some d, some e, some f, some g, some h =>
      let y := 1000 * a + 100 * b + 10 * c + d
      let m := 10 * e + f
      let dd := 10 * g + h
      if h1 = '-' ∧ h2 = '-' ∧ 1 ≤ m ∧ m ≤ 12 ∧ 1 ≤ dd ∧ dd ≤ 31 then
        some (MakeDate (MakeDay y ((m : Int) - 1) dd) 0)
      else none
    | _, _, _, _, _, _, _, _ => none
  | _ => none

/-- The year field of `Date.prototype.toISOString`: four digits for the years
0..9999, otherwise a sign and six digits. -/
def isoYear (y : Int) : List Char :=
  if 0 ≤ y ∧ y ≤ 9999 then pad4 y.toNat
  else if y < 0 then '-' :: pad6 y.natAbs
  else '+' :: pad6 y.natAbs

/-- The text `Date.prototype.toISOString` produces for a finite time value. -/
def isoString (t : Int) : String :=
  String.mk (isoYear (YearFromTime t) ++ '-' :: pad2 (MonthFromTime t + 1).toNat
    ++ '-' :: pad2 (DateFromTime t).toNat
    ++ 'T' :: pad2 (HourFromTime t).toNat
    ++ ':' :: pad2 (MinFromTime t).toNat
    ++ ':' :: pad2 (SecFromTime t).toNat
    ++ '.' :: pad3 (msFromTime t).toNat ++ ['Z'])

/-- `Date.prototype.toISOString`: throws a `RangeError` on an invalid date. -/
def toISOString (tv : Option Int) : Except JsError String :=
  match tv with
  | some t => .ok (isoString t)
  | none => .error ⟨"Invalid time value", none⟩


/-! ## `server.js`: the route `GET /events` -/

/-- The `req.query` fields the route destructures; each is a string or `undefined`
(a query key given once, or not at all). -/
structure Query where
  latitude : Option String
  longitude : Option String
  q : Option String
  date : Option String

/-- An object of request parameters: property names in insertion order, each with
its value (a string or `undefined`). -/
abbrev Params := List (String × Option String)

/-- An outbound `GET`: the URL, the `params` object and the `headers` object. -/
structure OutboundRequest where
  url : String
  params : Params
  headers : List (String × String)
deriving DecidableEq

/-- What the network gives back for an outbound request: an HTTP response with a
status and a parsed body, or a transport failure with its message. -/
inductive NetReply where
  | response (status : Nat) (data : Json) : NetReply
  | failure (message : String) : NetReply

/-- The peer of an outbound request. -/
abbrev Network := OutboundRequest → NetReply

/-- The settle rule of `axios.get` (default `validateStatus`): a status 200..299
resolves with the response, any other status rejects with an error carrying the
response, a transport failure rejects with an error carrying none.  The resolved
value is `response.data`. -/
def axiosGet (net : Network) (r : OutboundRequest) : Except JsError Json :=
  match net r with
  | .response status data =>
    if 200 ≤ status ∧ status < 300 then .ok data
    else .error ⟨"Request failed with status code " ++ toString status, some data⟩
  | .failure message => .error ⟨message, none⟩

/-- The constant `API_TOKEN` of `server.js` and `app.js`. -/
def API_TOKEN : String := "IPJJIBBTJNCCOF2TJY"

/-- The upstream endpoint. -/
def searchUrl : String := "https://www.eventbriteapi.com/v3/events/search/"

/-- One run of the route: the response status and JSON body, and the outbound
requests issued, in order. -/
structure RouteRun where
  status : Nat
  body : Json
  calls : List OutboundRequest

/-- The expression `err.response?.data || err.message` of the `catch` clause. -/
def errorDetails (e : JsError) : Json :=
  match e.responseData with
  | some d => if d.truthy then d else .str e.message
  | none => .str e.message

/-- The `catch` clause: `res.status(500).json` of an object with the fields
`error` and `details`. -/
def catchClause (e : JsError) (calls : List OutboundRequest) : RouteRun :=
  ⟨500, .obj [("error", .str "Failed to fetch events"), ("details", errorDetails e)], calls⟩

/-- The `params` object the route builds (lines 16 to 22), or the error thrown while
building it. -/
def buildParams (legacy : String → Option Int) (query : Query) : Except JsError Params :=
  let params : Params :=
    [("location.latitude", query.latitude), ("location.longitude", query.longitude),
     ("expand", some "venue")]
  let params : Params := if truthy query.q then params ++ [("q", query.q)] else params
  match query.date with
  | none => .ok params
  | some date =>
    if truthy (some date) then
      match toISOString (dateFromString legacy date) with
      | .ok iso => .ok (params ++ [("start_date.range_start", some iso)])
      | .error e => .error e
    else .ok params

/-- The handler of `app.get('/events')`, with the bearer token as an argument. -/
def eventsHandler (token : String) (legacy : String → Option Int) (net : Network)
    (query : Query) : RouteRun :=
  match buildParams legacy query with
  | .error e => catchClause e []
  | .ok params =>
    let out : OutboundRequest := ⟨searchUrl, params, [("Authorization", "Bearer " ++ token)]⟩
    match axiosGet net out with
    | .ok data => ⟨200, data, [out]⟩
    | .error e => catchClause e [out]

/-- The route as deployed: the handler with the constant `API_TOKEN`. -/
def eventsRoute (legacy : String → Option Int) (net : Network) (query : Query) : RouteRun :=
  eventsHandler API_TOKEN legacy net query

/-! ## `app/(tabs)/index.tsx`: the client -/

/-- The type `LocationCoords`; `ν` is the type of JavaScript numbers. -/
structure LocationCoords (ν : Type) where
  latitude : ν
  longitude : ν

/-- The state cells of the component `App` of `index.tsx`.  The `events` cell holds
whatever value `setEvents` was given. -/
structure AppState (ν : Type) where
  location : Option (LocationCoords ν)
  events : Json
  loading : Bool
  category : String
  date : String
  searching : Bool

/-- How a `fetch` of the backend settles: the promise rejects (transport failure),
or resolves with a response of some status whose body `response.json()` either
parses (`some`) or rejects (`none`). -/
inductive FetchReply where
  | rejected : FetchReply
  | response (status : Nat) (json : Option Json) : FetchReply

/-- One run of the client `fetchEvents`: the state afterwards, the `alert` texts
shown and the URLs fetched, in order. -/
structure FetchRun (ν : Type) where
  state : AppState ν
  alerts : List String
  fetched : List String

/-- The URL template of `fetchEvents`; `numToString` is the string conversion of
numbers in a template literal and `enc` is `encodeURIComponent`. -/
def eventsUrl {ν : Type} (numToString : ν → String) (enc : String → String)
    (loc : LocationCoords ν) (category date : String) : String :=
  "http://localhost:3001/events?latitude=" ++ numToString loc.latitude
    ++ "&longitude=" ++ numToString loc.longitude
    ++ (if category ≠ "" then "&q=" ++ enc category else "")
    ++ (if date ≠ "" then "&date=" ++ enc date else "")

/-- The expression `data.events || []`; `none` when reading `.events` throws (the
value `null` has no properties). -/
def eventsOrEmpty (data : Json) : Option Json :=
  match data with
  | .null => none
  | .obj fields =>
    match fields.lookup "events" with
    | some e => if e.truthy then some e else some (.arr [])
    | none => some (.arr [])
  | _ => some (.arr [])

/-- The function `fetchEvents` of `index.tsx` (lines 92 to 113). -/
def fetchEvents {ν : Type} (numToString : ν → String) (enc : String → String)
    (backend : String → FetchReply) (st : AppState ν) : FetchRun ν :=
  match st.location with
  | none => ⟨st, [], []⟩
  | some loc =>
    let st1 : AppState ν := { st with searching := true, events := .arr [] }
    let url := eventsUrl numToString enc loc st.category st.date
    let settled : Option Json :=
      match backend url with
      | .rejected => none
      | .response _ none => none
      | .response _ (some data) => eventsOrEmpty data
    match settled with
    | some ev => ⟨{ st1 with events := ev, searching := false }, [], [url]⟩
    | none =>
      ⟨{ st1 with searching := false }, ["Failed to fetch events from backend."], [url]⟩

/-! ## `app.js`: the stand-alone client -/

/-- The state cells of the component `App` of `app.js`. -/
structure LegacyState (ν : Type) where
  location : Option (LocationCoords ν)
  events : Json
  loading : Bool
  category : String
  date : String

/-- One run of the `fetchEvents` of `app.js`: the state afterwards, the `alert`
texts shown, the outbound requests issued, and the error that left the function
uncaught, if any. -/
structure LegacyRun (ν : Type) where
  state : LegacyState ν
  alerts : List String
  calls : List OutboundRequest
  uncaught : Option JsError

/-- The `params` object of the `fetchEvents` of `app.js` (lines 35 to 43), or the
error thrown while building it. -/
def legacyParams {ν : Type} (numToString : ν → String) (legacy : String → Option Int)
    (loc : LocationCoords ν) (category date : String) : Except JsError Params :=
  let params : Params :=
    [("location.latitude", some (numToString loc.latitude)),
     ("location.longitude", some (numToString loc.longitude)),
     ("expand", some "venue"), ("token", some API_TOKEN)]
  let params : Params := if category ≠ "" then params ++ [("q", some category)] else params
  if date ≠ "" then
    match toISOString (dateFromString legacy date) with
    | .ok iso => .ok (params ++ [("start_date.range_start", some iso)])
    | .error e => .error e
  else .ok params

/-- The function `fetchEvents` of `app.js` (lines 30 to 54).  The parameters are
built before the `try` block, so an error thrown there is not caught. -/
def legacyFetchEvents {ν : Type} (numToString : ν → String) (legacy : String → Option Int)
    (net : Network) (st : LegacyState ν) : LegacyRun ν :=
  match st.location with
  | none => ⟨st, [], [], none⟩
  | some loc =>
    let st1 : LegacyState ν := { st with loading := true }
    match legacyParams numToString legacy loc st.category st.date with
    | .error e => ⟨st1, [], [], some e⟩
    | .ok params =>
      let out : OutboundRequest := ⟨searchUrl, params, []⟩
      let settled : Option Json :=
        match axiosGet net out with
        | .ok data => eventsOrEmpty data
        | .error _ => none
      match settled with
      | some ev => ⟨{ st1 with events := ev, loading := false }, [], [out], none⟩
      | none =>
        ⟨{ st1 with loading := false }, ["Failed to fetch events. Check your API token."],
          [out], none⟩

/-! ## `parseFloat` and the map markers -/

/-- A JavaScript number as `parseFloat` delivers it.  A finite value stands for
`(-1)^negative * digits * 10^exp10`, the mathematical value of the decimal literal
read; the rounding of that value to a double is not represented. -/
inductive JSNumber where
  | nan : JSNumber
  | infinity (negative : Bool) : JSNumber
  | finite (negative : Bool) (digits : Nat) (exp10 : Int) : JSNumber
deriving DecidableEq

/-- ECMA-262 `StrWhiteSpaceChar`: white space and line terminators. -/
def isStrWhiteSpace (c : Char) : Bool :=
  let n := c.toNat
  n = 9 ∨ n = 10 ∨ n = 11 ∨ n = 12 ∨ n = 13 ∨ n = 32 ∨ n = 160 ∨ n = 5760
    ∨ (8192 ≤ n ∧ n ≤ 8202) ∨ n = 8232 ∨ n = 8233 ∨ n = 8239 ∨ n = 8287
    ∨ n = 12288 ∨ n = 65279

/-- The longest run of decimal digits at the head of a text, and the rest. -/
def takeDigits : List Char → List Nat × List Char
  | [] => ([], [])
  | c :: cs =>
    match digitVal c with
    | some d => ((takeDigits cs).1.cons d, (takeDigits cs).2)
    | none => ([], c :: cs)

/-- The number a list of decimal digits denotes. -/
def digitsValue (ds : List Nat) : Nat := ds.foldl (fun acc d => 10 * acc + d) 0

/-- The `ExponentPart` at the head of a text, if one is there: `e` or `E`, an
optional sign, at least one digit. -/
def takeExponent : List Char → Int
  | [] => 0
  | c :: cs =>
    if c = 'e' ∨ c = 'E' then
      match cs with
      | [] => 0
      | s :: rest =>
        if s = '-' then
          (if (takeDigits rest).1 = [] then 0 else - (digitsValue (takeDigits rest).1 : Int))
        else if s = '+' then (digitsValue (takeDigits rest).1 : Int)
        else (digitsValue (takeDigits (s :: rest)).1 : Int)
    else 0

/-- The longest prefix of a text that is a `StrUnsignedDecimalLiteral`, as a number
with the given sign; `NaN` when no prefix is one. -/
def parseUnsigned (negative : Bool) (cs : List Char) : JSNumber :=
  if "Infinity".data <+: cs then .infinity negative
  else
    let ip := takeDigits cs
    match ip.2 with
    | '.' :: afterDot =>
      let fp := takeDigits afterDot
      if ip.1 = [] ∧ fp.1 = [] then .nan
      else .finite negative (digitsValue (ip.1 ++ fp.1)) (takeExponent fp.2 - fp.1.length)
    | rest =>
      if ip.1 = [] then .nan
      else .finite negative (digitsValue ip.1) (takeExponent rest)

/-- The global function `parseFloat` on a string: leading white space is skipped,
then the longest prefix that is a `StrDecimalLiteral` is read. -/
def parseFloat (s : String) : JSNumber :=
  match s.data.dropWhile isStrWhiteSpace with
  | '-' :: cs => parseUnsigned true cs
  | '+' :: cs => parseUnsigned false cs
  | cs => parseUnsigned false cs

/-- The type `Venue` of `index.tsx`. -/
structure Venue where
  latitude : Option String
  longitude : Option String
  address : Option (Option String)

/-- The type `Event` of `index.tsx`: `name` is `name.text`, `startLocal` is
`start.local`, `logo` is `logo.url`. -/
structure Event where
  id : String
  name : String
  startLocal : String
  venue : Option Venue
  logo : Option String

/-- A rendered map marker. -/
structure Marker where
  key : String
  latitude : JSNumber
  longitude : JSNumber
  title : String
deriving DecidableEq

/-- The marker rule of `WebMap` in `index.tsx` (lines 51 to 60):
`event.venue?.latitude && event.venue?.longitude && <Marker ... />`. -/
def webMapMarker (e : Event) : Option Marker :=
  match e.venue with
  | none => none
  | some v =>
    match v.latitude, v.longitude with
    | some lat, some lon =>
      if truthy (some lat) ∧ truthy (some lon) then
        some ⟨e.id, parseFloat lat, parseFloat lon, e.name⟩
      else none
    | _, _ => none

/-- The marker rule of `app.js` (lines 91 to 106):
`if (venue && venue.latitude && venue.longitude) return <Marker ... />`. -/
def nativeMarker (e : Event) : Option Marker :=
  match e.venue with
  | none => none
  | some v =>
    if truthy v.latitude ∧ truthy v.longitude then
      match v.latitude, v.longitude with
      | some lat, some lon => some ⟨e.id, parseFloat lat, parseFloat lon, e.name⟩
      | _, _ => none
    else none


/-! ## Calendar lemmas -/

theorem DayFromYear_succ (y : Int) : DayFromYear (y + 1) = DayFromYear y + DaysInYear y := by
  unfold DayFromYear DaysInYear
  split_ifs <;> omega

theorem DaysInYear_range (y : Int) : 365 ≤ DaysInYear y ∧ DaysInYear y ≤ 366 := by
  unfold DaysInYear
  split_ifs <;> omega

theorem DayFromYear_bounds (y : Int) :
    146097 * (y - 1970) - 506 ≤ 400 * DayFromYear y ∧
      400 * DayFromYear y ≤ 146097 * (y - 1970) + 589 := by
  unfold DayFromYear
  omega

theorem yearFromDay_eq (d y : Int) (h1 : DayFromYear y ≤ d) (h2 : d < DayFromYear (y + 1)) :
    yearFromDay d = y := by
  have b1 := DayFromYear_bounds y
  have b2 := DayFromYear_bounds (y + 1)
  have s0 := DayFromYear_succ (y - 1)
  have s1 := DayFromYear_succ y
  have s2 := DayFromYear_succ (y + 1)
  have r0 := DaysInYear_range (y - 1)
  have r1 := DaysInYear_range y
  have r2 := DaysInYear_range (y + 1)
  have e0 : y - 1 + 1 = y := by ring
  rw [e0] at s0
  have hk : 400 * d / 146097 = y - 1970 - 1 ∨ 400 * d / 146097 = y - 1970
      ∨ 400 * d / 146097 = y - 1970 + 1 := by omega
  unfold yearFromDay
  simp only
  rcases hk with h | h | h
  · have e : 1970 + (y - 1970 - 1) = y - 1 := by ring
    rw [h, e, e0, if_neg (by omega), if_pos h1]
  · have e : 1970 + (y - 1970) = y := by ring
    rw [h, e, if_neg (by omega), if_neg (by omega)]
  · have e : 1970 + (y - 1970 + 1) = y + 1 := by ring
    rw [h, e, if_pos h2]
    ring

theorem yearFromDay_spec (d : Int) :
    DayFromYear (yearFromDay d) ≤ d ∧ d < DayFromYear (yearFromDay d + 1) := by
  have b0 := DayFromYear_bounds (1970 + 400 * d / 146097)
  have b2 := DayFromYear_bounds (1970 + 400 * d / 146097 + 1 + 1)
  have s0 := DayFromYear_succ (1970 + 400 * d / 146097 - 1)
  have s1 := DayFromYear_succ (1970 + 400 * d / 146097 + 1)
  have r0 := DaysInYear_range (1970 + 400 * d / 146097 - 1)
  have r1 := DaysInYear_range (1970 + 400 * d / 146097 + 1)
  have e0 : 1970 + 400 * d / 146097 - 1 + 1 = 1970 + 400 * d / 146097 := by ring
  rw [e0] at s0
  unfold yearFromDay
  simp only
  split_ifs with c1 c2
  · rw [e0]
    exact ⟨by omega, c1⟩
  · exact ⟨c2, by omega⟩
  · exact ⟨by omega, by omega⟩

/-- The day number of a civil date: first day of the year, start of the month, day. -/
theorem MakeDay_civil (y m d : Nat) (hm1 : 1 ≤ m) (hm2 : m ≤ 12) :
    MakeDay y ((m : Int) - 1) d
      = DayFromYear y + monthStart ((m : Int) - 1) (leapDays y) + d - 1 := by
  unfold MakeDay
  have e1 : ((m : Int) - 1) / 12 = 0 := by omega
  have e2 : ((m : Int) - 1) % 12 = (m : Int) - 1 := by omega
  simp only [e1, e2, add_zero]

/-- A civil date lies inside its year. -/
theorem civil_within_year (y m d : Nat) (hm1 : 1 ≤ m) (hm2 : m ≤ 12)
    (hd1 : 1 ≤ d) (hd2 : d ≤ daysInMonth y m) :
    0 ≤ monthStart ((m : Int) - 1) (leapDays y) + d - 1 ∧
      monthStart ((m : Int) - 1) (leapDays y) + d - 1 < DaysInYear y := by
  have r := DaysInYear_range (y : Int)
  unfold daysInMonth at hd2
  unfold monthStart leapDays
  by_cases lp : DaysInYear (y : Int) = 366
  · simp only [lp, if_true] at hd2 ⊢
    interval_cases m <;> simp at hd2 ⊢ <;> omega
  · simp only [lp, if_false] at hd2 ⊢
    interval_cases m <;> simp at hd2 ⊢ <;> omega

/-- The month table inverts the month starts on every civil date. -/
theorem month_of_civil (y m d : Nat) (hm1 : 1 ≤ m) (hm2 : m ≤ 12)
    (hd1 : 1 ≤ d) (hd2 : d ≤ daysInMonth y m) :
    monthFromDayWithinYear (monthStart ((m : Int) - 1) (leapDays y) + d - 1) (leapDays y)
      = (m : Int) - 1 := by
  unfold daysInMonth at hd2
  unfold monthFromDayWithinYear monthStart leapDays
  by_cases lp : DaysInYear (y : Int) = 366
  · simp only [lp, if_true] at hd2 ⊢
    interval_cases m <;> norm_num at hd2 ⊢ <;> omega
  · simp only [lp, if_false] at hd2 ⊢
    interval_cases m <;> norm_num at hd2 ⊢ <;> omega

/-- The calendar fields of UTC midnight of a civil date are that date. -/
theorem fields_of_midnight (y m d : Nat) (hm1 : 1 ≤ m) (hm2 : m ≤ 12)
    (hd1 : 1 ≤ d) (hd2 : d ≤ daysInMonth y m) :
    YearFromTime (MakeDate (MakeDay y ((m : Int) - 1) d) 0) = y ∧
    MonthFromTime (MakeDate (MakeDay y ((m : Int) - 1) d) 0) = (m : Int) - 1 ∧
    DateFromTime (MakeDate (MakeDay y ((m : Int) - 1) d) 0) = d ∧
    HourFromTime (MakeDate (MakeDay y ((m : Int) - 1) d) 0) = 0 ∧
    MinFromTime (MakeDate (MakeDay y ((m : Int) - 1) d) 0) = 0 ∧
    SecFromTime (MakeDate (MakeDay y ((m : Int) - 1) d) 0) = 0 ∧
    msFromTime (MakeDate (MakeDay y ((m : Int) - 1) d) 0) = 0 := by
  have hw := civil_within_year y m d hm1 hm2 hd1 hd2
  have hmo := month_of_civil y m d hm1 hm2 hd1 hd2
  have hs := DayFromYear_succ (y : Int)
  rw [MakeDay_civil y m d hm1 hm2]
  generalize hoff : monthStart ((m : Int) - 1) (leapDays y) = ms at hw hmo
  have hday : Day (MakeDate (DayFromYear y + ms + d - 1) 0) = DayFromYear y + ms + d - 1 := by
    unfold Day MakeDate msPerDay
    omega
  have hyear : YearFromTime (MakeDate (DayFromYear y + ms + d - 1) 0) = y := by
    unfold YearFromTime
    rw [hday]
    exact yearFromDay_eq _ _ (by omega) (by omega)
  have hdwy : DayWithinYear (MakeDate (DayFromYear y + ms + d - 1) 0) = ms + d - 1 := by
    unfold DayWithinYear
    rw [hday, hyear]
    ring
  have hleap : InLeapYear (MakeDate (DayFromYear y + ms + d - 1) 0) = leapDays y := by
    unfold InLeapYear
    rw [hyear]
  have hmonth : MonthFromTime (MakeDate (DayFromYear y + ms + d - 1) 0) = (m : Int) - 1 := by
    unfold MonthFromTime
    rw [hdwy, hleap]
    exact hmo
  refine ⟨hyear, hmonth, ?_, ?_, ?_, ?_, ?_⟩
  · unfold DateFromTime
    rw [hdwy, hmonth, hleap, hoff]
    ring
  · unfold HourFromTime MakeDate msPerDay
    omega
  · unfold MinFromTime MakeDate msPerDay
    omega
  · unfold SecFromTime MakeDate msPerDay
    omega
  · unfold msFromTime MakeDate msPerDay
    omega

/-! ## Text lemmas -/

theorem digitVal_digitChar (n : Nat) : digitVal (digitChar n) = some (n % 10) := by
  unfold digitChar
  have h : n % 10 < 10 := Nat.mod_lt _ (by decide)
  generalize n % 10 = k at h
  interval_cases k <;> rfl

/-- Reading the date-only form of a civil date gives UTC midnight of that date. -/
theorem parseISODateOnly_isoDate (y m d : Nat) (hy : y ≤ 9999) (hm1 : 1 ≤ m) (hm2 : m ≤ 12)
    (hd1 : 1 ≤ d) (hd2 : d ≤ daysInMonth y m) :
    parseISODateOnly (isoDate y m d) = some (MakeDate (MakeDay y ((m : Int) - 1) d) 0) := by
  have hd3 : d ≤ 31 := by
    unfold daysInMonth at hd2
    split_ifs at hd2 <;> omega
  have ey : 1000 * (y / 1000 % 10) + 100 * (y / 100 % 10) + 10 * (y / 10 % 10) + y % 10 = y := by
    omega
  have em : 10 * (m / 10 % 10) + m % 10 = m := by omega
  have ed : 10 * (d / 10 % 10) + d % 10 = d := by omega
  simp only [parseISODateOnly, isoDate, pad4, pad2, List.cons_append, List.nil_append,
    digitVal_digitChar, ey, em, ed]
  rw [if_pos ⟨trivial, trivial, hm1, hm2, hd1, hd2⟩]

/-- The text of UTC midnight of a civil date is its date-only form followed by the
zero time of day and `Z`. -/
theorem isoString_midnight (y m d : Nat) (hy : y ≤ 9999) (hm1 : 1 ≤ m) (hm2 : m ≤ 12)
    (hd1 : 1 ≤ d) (hd2 : d ≤ daysInMonth y m) :
    isoString (MakeDate (MakeDay y ((m : Int) - 1) d) 0)
      = isoDate y m d ++ "T00:00:00.000Z" := by
  obtain ⟨h1, h2, h3, h4, h5, h6, h7⟩ := fields_of_midnight y m d hm1 hm2 hd1 hd2
  have e2 : ((m : Int) - 1 + 1).toNat = m := by omega
  have e1 : isoYear (y : Int) = pad4 y := by
    unfold isoYear
    rw [if_pos ⟨by omega, by omega⟩]
    simp
  unfold isoString isoDate
  rw [h1, h2, h3, h4, h5, h6, h7, e1, e2]
  simp only [Int.toNat_ofNat, Int.toNat_zero]
  rfl

/-- UTC midnight of a civil date of the years 0..9999 is inside the time range. -/
theorem TimeClip_midnight (y m d : Nat) (hy : y ≤ 9999) (hm1 : 1 ≤ m) (hm2 : m ≤ 12)
    (hd1 : 1 ≤ d) (hd2 : d ≤ daysInMonth y m) :
    TimeClip (MakeDate (MakeDay y ((m : Int) - 1) d) 0)
      = some (MakeDate (MakeDay y ((m : Int) - 1) d) 0) := by
  have hw := civil_within_year y m d hm1 hm2 hd1 hd2
  have hb := DayFromYear_bounds (y : Int)
  have hr := DaysInYear_range (y : Int)
  rw [MakeDay_civil y m d hm1 hm2]
  generalize monthStart ((m : Int) - 1) (leapDays y) = ms at hw
  generalize DayFromYear (y : Int) = dy at hw hb
  unfold TimeClip MakeDate msPerDay
  rw [if_pos (by omega)]

/-- The `Date` built from the date-only form of a civil date is UTC midnight of it. -/
theorem dateFromString_isoDate (legacy : String → Option Int) (y m d : Nat) (hy : y ≤ 9999)
    (hm1 : 1 ≤ m) (hm2 : m ≤ 12) (hd1 : 1 ≤ d) (hd2 : d ≤ daysInMonth y m) :
    dateFromString legacy (isoDate y m d) = some (MakeDate (MakeDay y ((m : Int) - 1) d) 0) := by
  unfold dateFromString
  rw [parseISODateOnly_isoDate y m d hy hm1 hm2 hd1 hd2]
  exact TimeClip_midnight y m d hy hm1 hm2 hd1 hd2

theorem isoDate_ne_empty (y m d : Nat) : isoDate y m d ≠ "" := by
  intro h
  have h2 := congrArg String.length h
  simp [isoDate, pad4, pad2, String.length] at h2

/-! ## The route `GET /events` -/

theorem truthy_some (s : String) : truthy (some s) = decide (s ≠ "") := rfl

/-- The parameters built when no date filter is sent (absent or empty). -/
theorem buildParams_no_date (legacy : String → Option Int) (query : Query)
    (hd : query.date = none ∨ query.date = some "") :
    buildParams legacy query = .ok
      ([("location.latitude", query.latitude), ("location.longitude", query.longitude),
        ("expand", some "venue")] ++ (if truthy query.q then [("q", query.q)] else [])) := by
  unfold buildParams
  rcases hd with h | h <;> rw [h] <;> by_cases hq : truthy query.q = true <;>
    simp [hq, truthy_some]

/-- The parameters built when a non-empty date filter is sent. -/
theorem buildParams_date (legacy : String → Option Int) (query : Query) (s : String)
    (hd : query.date = some s) (hs : s ≠ "") :
    buildParams legacy query =
      match dateFromString legacy s with
      | some t => .ok
        ([("location.latitude", query.latitude), ("location.longitude", query.longitude),
          ("expand", some "venue")] ++ (if truthy query.q then [("q", query.q)] else [])
          ++ [("start_date.range_start", some (isoString t))])
      | none => .error ⟨"Invalid time value", none⟩ := by
  unfold buildParams
  rw [hd]
  cases hp : dateFromString legacy s <;>
    by_cases hq : truthy query.q = true <;> simp [hq, truthy_some, hs, toISOString, hp]

/-- Once the parameters are built the handler issues exactly one request. -/
theorem eventsHandler_calls (token : String) (legacy : String → Option Int) (net : Network)
    (query : Query) (params : Params) (hb : buildParams legacy query = .ok params) :
    (eventsHandler token legacy net query).calls
      = [⟨searchUrl, params, [("Authorization", "Bearer " ++ token)]⟩] := by
  unfold eventsHandler
  rw [hb]
  simp only
  cases axiosGet net ⟨searchUrl, params, [("Authorization", "Bearer " ++ token)]⟩ <;> rfl

/-- An error thrown while the parameters are built goes to the `catch` clause
before any request is issued. -/
theorem eventsHandler_build_error (token : String) (legacy : String → Option Int)
    (net : Network) (query : Query) (e : JsError) (hb : buildParams legacy query = .error e) :
    eventsHandler token legacy net query = catchClause e [] := by
  unfold eventsHandler
  rw [hb]

/-- C1. A request with no `q` and no `date` (whatever its latitude and longitude, so
in particular with a latitude in [-90, 90] and a longitude in [-180, 180]) makes the
route issue exactly one upstream GET, whose parameters are exactly
`location.latitude`, `location.longitude` and `expand = venue`: there is no `q` key
and no `start_date.range_start` key. -/
theorem no_filters_single_call (legacy : String → Option Int) (net : Network) (query : Query)
    (hq : query.q = none) (hd : query.date = none) :
    ∃ out : OutboundRequest, (eventsRoute legacy net query).calls = [out] ∧
      out.url = searchUrl ∧
      out.params = [("location.latitude", query.latitude),
        ("location.longitude", query.longitude), ("expand", some "venue")] ∧
      out.params.lookup "q" = none ∧ out.params.lookup "start_date.range_start" = none := by
  have hb := buildParams_no_date legacy query (Or.inl hd)
  rw [hq] at hb
  refine ⟨_, eventsHandler_calls API_TOKEN legacy net query _ hb, rfl, rfl, ?_, ?_⟩ <;>
    simp [truthy, List.lookup]

/-- C1, at latitude 40.7 and longitude -74.0 with an upstream that answers 200. -/
theorem no_filters_single_call_witness :
    ∃ out : OutboundRequest,
      (eventsRoute (fun _ => none) (fun _ => .response 200 (.obj [("events", .arr [])]))
        ⟨some "40.7", some "-74.0", none, none⟩).calls = [out] ∧
      out.url = searchUrl ∧
      out.params = [("location.latitude", some "40.7"),
        ("location.longitude", some "-74.0"), ("expand", some "venue")] ∧
      out.params.lookup "q" = none ∧ out.params.lookup "start_date.range_start" = none :=
  no_filters_single_call (fun _ => none) (fun _ => .response 200 (.obj [("events", .arr [])]))
    ⟨some "40.7", some "-74.0", none, none⟩ rfl rfl

/-- C2, refuted as stated: a category of one blank is sent upstream as `q`, so the
parameters differ from those built when the category is absent. -/
theorem blank_category_counterexample :
    buildParams (fun _ => none) ⟨some "40.7", some "-74.0", some " ", none⟩
      = .ok [("location.latitude", some "40.7"), ("location.longitude", some "-74.0"),
          ("expand", some "venue"), ("q", some " ")] ∧
    buildParams (fun _ => none) ⟨some "40.7", some "-74.0", none, none⟩
      = .ok [("location.latitude", some "40.7"), ("location.longitude", some "-74.0"),
          ("expand", some "venue")] ∧
    (eventsRoute (fun _ => none) (fun _ => .response 200 (.obj [("events", .arr [])]))
        ⟨some "40.7", some "-74.0", some " ", none⟩).calls
      = [⟨searchUrl, [("location.latitude", some "40.7"), ("location.longitude", some "-74.0"),
          ("expand", some "venue"), ("q", some " ")],
          [("Authorization", "Bearer " ++ API_TOKEN)]⟩] ∧
    eventsUrl id id (⟨"40.7", "-74.0"⟩ : LocationCoords String) " " ""
      = "http://localhost:3001/events?latitude=40.7&longitude=-74.0&q= " := by
  refine ⟨rfl, rfl, rfl, ?_⟩
  decide

/-- C2, amended. The empty category is treated as absent: the route run is the one of
the same request without `q`, and the client URL has no `q` part.  Every non-empty
category, one made of white space included, is sent upstream unchanged under the key
`q`, after `expand`. -/
theorem empty_category_is_absent (legacy : String → Option Int) (net : Network)
    (query : Query) (enc : String → String) (loc : LocationCoords String) (date : String) :
    (query.q = some "" →
      eventsRoute legacy net query = eventsRoute legacy net { query with q := none }) ∧
    (eventsUrl id enc loc "" date
      = "http://localhost:3001/events?latitude=" ++ loc.latitude ++ "&longitude="
          ++ loc.longitude ++ (if date ≠ "" then "&date=" ++ enc date else "")) ∧
    (∀ s params, query.q = some s → s ≠ "" → buildParams legacy query = .ok params →
      params.take 4 = [("location.latitude", query.latitude),
        ("location.longitude", query.longitude), ("expand", some "venue"), ("q", some s)]) := by
  refine ⟨?_, ?_, ?_⟩
  · intro hq
    have hb : buildParams legacy query = buildParams legacy { query with q := none } := by
      unfold buildParams
      simp [hq, truthy]
    unfold eventsRoute eventsHandler
    rw [hb]
  · simp [eventsUrl]
  · intro s params hq hs hb
    have ht : truthy query.q = true := by simp [hq, truthy, hs]
    by_cases hd : query.date = none ∨ query.date = some ""
    · rw [buildParams_no_date legacy query hd, ht, hq] at hb
      cases hb
      rfl
    · cases hdate : query.date with
      | none => exact absurd (Or.inl hdate) hd
      | some dt =>
        have hne : dt ≠ "" := fun h => hd (Or.inr (by rw [hdate, h]))
        rw [buildParams_date legacy query dt hdate hne, ht, hq] at hb
        cases hp : dateFromString legacy dt with
        | none => rw [hp] at hb; cases hb
        | some t => rw [hp] at hb; cases hb; rfl

/-- C3. When `date` is the form YYYY-MM-DD of a calendar date (year 0000..9999, month
01..12, a day of that month), the route issues one upstream call whose parameter
`start_date.range_start` is the ISO-8601 text of UTC midnight of that date: the date
followed by `T00:00:00.000Z`; the instant behind it is day `MakeDay` of the date at
time of day zero. -/
theorem date_filter_utc_midnight (legacy : String → Option Int) (net : Network)
    (query : Query) (y m d : Nat) (hy : y ≤ 9999) (hm1 : 1 ≤ m) (hm2 : m ≤ 12)
    (hd1 : 1 ≤ d) (hd2 : d ≤ daysInMonth y m) (hdate : query.date = some (isoDate y m d)) :
    ∃ out : OutboundRequest, (eventsRoute legacy net query).calls = [out] ∧
      out.params.lookup "start_date.range_start"
        = some (some (isoDate y m d ++ "T00:00:00.000Z")) ∧
      dateFromString legacy (isoDate y m d)
        = some (MakeDate (MakeDay y ((m : Int) - 1) d) 0) ∧
      TimeWithinDay (MakeDate (MakeDay y ((m : Int) - 1) d) 0) = 0 := by
  have hp := dateFromString_isoDate legacy y m d hy hm1 hm2 hd1 hd2
  have hb := buildParams_date legacy query _ hdate (isoDate_ne_empty y m d)
  rw [hp] at hb
  simp only at hb
  rw [isoString_midnight y m d hy hm1 hm2 hd1 hd2] at hb
  refine ⟨_, eventsHandler_calls API_TOKEN legacy net query _ hb, ?_, hp, ?_⟩
  · by_cases hq : truthy query.q = true <;> simp [hq, List.lookup]
  · unfold TimeWithinDay MakeDate msPerDay
    omega

/-- C3 at `date = "2024-03-15"`: the parameter is `2024-03-15T00:00:00.000Z`, the
instant 1710460800000 ms after the epoch. -/
theorem date_filter_utc_midnight_witness :
    ∃ out : OutboundRequest,
      (eventsRoute (fun _ => none) (fun _ => .response 200 (.obj [("events", .arr [])]))
        ⟨some "40.7", some "-74.0", none, some "2024-03-15"⟩).calls = [out] ∧
      out.params.lookup "start_date.range_start" = some (some "2024-03-15T00:00:00.000Z") ∧
      dateFromString (fun _ => none) "2024-03-15" = some 1710460800000 ∧
      TimeWithinDay 1710460800000 = 0 :=
  date_filter_utc_midnight (fun _ => none) (fun _ => .response 200 (.obj [("events", .arr [])]))
    ⟨some "40.7", some "-74.0", none, some "2024-03-15"⟩ 2024 3 15
    (by decide) (by decide) (by decide) (by decide) (by decide) (by decide)

/-- C4, refuted as stated: `2024-02-30` has the form YYYY-MM-DD and names no calendar
date, yet under the date heuristics of Node the route answers 200 and issues one
upstream call, whose `start_date.range_start` is the first of March. -/
theorem lenient_date_counterexample :
    parseISODateOnly "2024-02-30" = none ∧
    dateFromString lenientDateOnly "2024-02-30" = some 1709251200000 ∧
    (eventsRoute lenientDateOnly (fun _ => .response 200 (.obj [("events", .arr [])]))
        ⟨some "40.7", some "-74.0", none, some "2024-02-30"⟩).status = 200 ∧
    (eventsRoute lenientDateOnly (fun _ => .response 200 (.obj [("events", .arr [])]))
        ⟨some "40.7", some "-74.0", none, some "2024-02-30"⟩).calls
      = [⟨searchUrl, [("location.latitude", some "40.7"), ("location.longitude", some "-74.0"),
          ("expand", some "venue"),
          ("start_date.range_start", some "2024-03-01T00:00:00.000Z")],
          [("Authorization", "Bearer " ++ API_TOKEN)]⟩] := by
  refine ⟨by decide, by decide, ?_, ?_⟩
  · decide
  · decide

/-- C4, amended. For a non-empty `date` the filter is never dropped.  When the string
yields an invalid `Date` (as `not-a-date` does), the route answers with its failure
response, status 500 with the details `Invalid time value` (the message of the
`RangeError` for the date), and issues no upstream call.  When it yields a valid
`Date`, the route issues exactly one upstream call and that call carries
`start_date.range_start`, the ISO text of that `Date`. -/
theorem invalid_date_fails_locally (legacy : String → Option Int) (net : Network)
    (query : Query) (s : String) (hdate : query.date = some s) (hs : s ≠ "") :
    (dateFromString legacy s = none →
      eventsRoute legacy net query
        = ⟨500, .obj [("error", .str "Failed to fetch events"),
                     ("details", .str "Invalid time value")], []⟩) ∧
    (∀ t, dateFromString legacy s = some t →
      ∃ out : OutboundRequest, (eventsRoute legacy net query).calls = [out] ∧
        out.params.lookup "start_date.range_start" = some (some (isoString t))) := by
  have hb := buildParams_date legacy query s hdate hs
  constructor
  · intro hbad
    rw [hbad] at hb
    unfold eventsRoute
    rw [eventsHandler_build_error API_TOKEN legacy net query _ hb]
    rfl
  · intro t ht
    rw [ht] at hb
    simp only at hb
    refine ⟨_, eventsHandler_calls API_TOKEN legacy net query _ hb, ?_⟩
    by_cases hq : truthy query.q = true <;> simp [hq, List.lookup]

/-- C4 amended, at `date = "not-a-date"`, for an engine that rejects the string. -/
theorem invalid_date_fails_locally_witness :
    eventsRoute (fun _ => none) (fun _ => .response 200 (.obj [("events", .arr [])]))
        ⟨some "40.7", some "-74.0", none, some "not-a-date"⟩
      = ⟨500, .obj [("error", .str "Failed to fetch events"),
                   ("details", .str "Invalid time value")], []⟩ :=
  (invalid_date_fails_locally (fun _ => none)
    (fun _ => .response 200 (.obj [("events", .arr [])]))
    ⟨some "40.7", some "-74.0", none, some "not-a-date"⟩ "not-a-date" rfl (by decide)).1
    (by decide)

/-- C5, refuted as stated: with the latitude missing and the longitude not a number the
route still issues the upstream call, the latitude `undefined` and the longitude as
received, and relays the upstream answer with status 200. -/
theorem unchecked_coordinates_counterexample :
    eventsRoute (fun _ => none) (fun _ => .response 200 (.obj [("events", .arr [])]))
        ⟨none, some "abc", none, none⟩
      = ⟨200, .obj [("events", .arr [])],
          [⟨searchUrl, [("location.latitude", none), ("location.longitude", some "abc"),
              ("expand", some "venue")], [("Authorization", "Bearer " ++ API_TOKEN)]⟩]⟩ := by
  rfl

/-- C5, amended. The route does not check latitude and longitude.  For every request
whose date is absent, empty or yields a valid `Date`, it issues exactly one upstream
call that carries the latitude and longitude as received (missing ones as
`undefined`), and its answer is the failure response only when that call fails:
otherwise it is status 200 with the upstream body. -/
theorem coordinates_forwarded_unchecked (legacy : String → Option Int) (net : Network)
    (query : Query)
    (hdate : ∀ s, query.date = some s → s ≠ "" → dateFromString legacy s ≠ none) :
    ∃ out : OutboundRequest, (eventsRoute legacy net query).calls = [out] ∧
      out.params.lookup "location.latitude" = some query.latitude ∧
      out.params.lookup "location.longitude" = some query.longitude ∧
      (∀ data, axiosGet net out = .ok data →
        eventsRoute legacy net query = ⟨200, data, [out]⟩) ∧
      (∀ e, axiosGet net out = .error e →
        eventsRoute legacy net query = catchClause e [out]) := by
  have hex : ∃ tail : Params, buildParams legacy query = .ok
      (("location.latitude", query.latitude) :: ("location.longitude", query.longitude)
        :: tail) := by
    by_cases hd : query.date = none ∨ query.date = some ""
    · exact ⟨_, buildParams_no_date legacy query hd⟩
    · cases hq : query.date with
      | none => exact absurd (Or.inl hq) hd
      | some dt =>
        have hne : dt ≠ "" := fun h => hd (Or.inr (by rw [hq, h]))
        have hb := buildParams_date legacy query dt hq hne
        cases hp : dateFromString legacy dt with
        | none => exact absurd hp (hdate dt hq hne)
        | some t =>
          rw [hp] at hb
          exact ⟨_, hb⟩
  obtain ⟨tail, hb⟩ := hex
  refine ⟨_, eventsHandler_calls API_TOKEN legacy net query _ hb, ?_, ?_, ?_, ?_⟩
  · simp [List.lookup]
  · simp [List.lookup]
  · intro data hok
    unfold eventsRoute eventsHandler
    rw [hb]
    simp only
    rw [hok]
  · intro e herr
    unfold eventsRoute eventsHandler
    rw [hb]
    simp only
    rw [herr]

/-- C5 amended, at a request without latitude and with the longitude `abc`. -/
theorem coordinates_forwarded_unchecked_witness :
    ∃ out : OutboundRequest,
      (eventsRoute (fun _ => none) (fun _ => .failure "getaddrinfo ENOTFOUND")
        ⟨none, some "abc", none, none⟩).calls = [out] ∧
      out.params.lookup "location.latitude" = some none ∧
      out.params.lookup "location.longitude" = some (some "abc") ∧
      (∀ data, axiosGet (fun _ => .failure "getaddrinfo ENOTFOUND") out = .ok data →
        eventsRoute (fun _ => none) (fun _ => .failure "getaddrinfo ENOTFOUND")
          ⟨none, some "abc", none, none⟩ = ⟨200, data, [out]⟩) ∧
      (∀ e, axiosGet (fun _ => .failure "getaddrinfo ENOTFOUND") out = .error e →
        eventsRoute (fun _ => none) (fun _ => .failure "getaddrinfo ENOTFOUND")
          ⟨none, some "abc", none, none⟩ = catchClause e [out]) :=
  coordinates_forwarded_unchecked (fun _ => none) (fun _ => .failure "getaddrinfo ENOTFOUND")
    ⟨none, some "abc", none, none⟩ (fun _ h => nomatch h)

/-- Every run of the handler ends in one of two ways: the upstream answered with a
status 200..299 and the run is status 200 with that body, or an error was thrown in
the `try` block and the run is the `catch` clause on it. -/
theorem eventsHandler_outcome (token : String) (legacy : String → Option Int)
    (net : Network) (query : Query) :
    (∃ params status data, buildParams legacy query = .ok params ∧
        net ⟨searchUrl, params, [("Authorization", "Bearer " ++ token)]⟩
          = .response status data ∧ (200 ≤ status ∧ status < 300) ∧
        eventsHandler token legacy net query
          = ⟨200, data, [⟨searchUrl, params, [("Authorization", "Bearer " ++ token)]⟩]⟩)
    ∨ (∃ e, buildParams legacy query = .error e ∧
        eventsHandler token legacy net query = catchClause e [])
    ∨ (∃ params message, buildParams legacy query = .ok params ∧
        net ⟨searchUrl, params, [("Authorization", "Bearer " ++ token)]⟩ = .failure message ∧
        eventsHandler token legacy net query = catchClause ⟨message, none⟩
          [⟨searchUrl, params, [("Authorization", "Bearer " ++ token)]⟩])
    ∨ (∃ params status data, buildParams legacy query = .ok params ∧
        net ⟨searchUrl, params, [("Authorization", "Bearer " ++ token)]⟩
          = .response status data ∧ ¬ (200 ≤ status ∧ status < 300) ∧
        eventsHandler token legacy net query
          = catchClause ⟨"Request failed with status code " ++ toString status, some data⟩
              [⟨searchUrl, params, [("Authorization", "Bearer " ++ token)]⟩]) := by
  unfold eventsHandler
  cases hb : buildParams legacy query with
  | error e => exact Or.inr (Or.inl ⟨e, rfl, rfl⟩)
  | ok params =>
    simp only [axiosGet]
    cases hn : net ⟨searchUrl, params, [("Authorization", "Bearer " ++ token)]⟩ with
    | failure message => exact Or.inr (Or.inr (Or.inl ⟨params, message, rfl, hn, rfl⟩))
    | response status data =>
      by_cases hst : 200 ≤ status ∧ status < 300
      · refine Or.inl ⟨params, status, data, rfl, hn, hst, ?_⟩
        simp only [if_pos hst]
      · refine Or.inr (Or.inr (Or.inr ⟨params, status, data, rfl, hn, hst, ?_⟩))
        simp only [if_neg hst]

/-- C6. Whatever `e` is thrown inside the `try` block (while the parameters are
built, by a transport failure, or by an upstream status outside 200..299 such as 401)
is caught: the route answers status 500 with a body of exactly the two fields `error`
and `details`, in which `details` is the upstream response body when the error
carries one and it is truthy, and the error message otherwise; the body has no
`events` field, and at most one upstream call was made. -/
theorem failures_answer_500 (token : String) (legacy : String → Option Int) (net : Network)
    (query : Query) (e : JsError)
    (hthrow : buildParams legacy query = .error e
      ∨ (∃ params message, buildParams legacy query = .ok params ∧
          net ⟨searchUrl, params, [("Authorization", "Bearer " ++ token)]⟩ = .failure message ∧
          e = ⟨message, none⟩)
      ∨ (∃ params status data, buildParams legacy query = .ok params ∧
          net ⟨searchUrl, params, [("Authorization", "Bearer " ++ token)]⟩
            = .response status data ∧
          ¬ (200 ≤ status ∧ status < 300) ∧
          e = ⟨"Request failed with status code " ++ toString status, some data⟩)) :
    (eventsHandler token legacy net query).status = 500 ∧
    (∃ details : Json,
      (eventsHandler token legacy net query).body
        = .obj [("error", .str "Failed to fetch events"), ("details", details)] ∧
      (∀ d, e.responseData = some d → d.truthy = true → details = d) ∧
      (∀ d, e.responseData = some d → d.truthy = false → details = .str e.message) ∧
      (e.responseData = none → details = .str e.message)) ∧
    (∀ fields, (eventsHandler token legacy net query).body = .obj fields →
      fields.map Prod.fst = ["error", "details"] ∧ fields.lookup "events" = none) ∧
    (eventsHandler token legacy net query).calls.length ≤ 1 := by
  have hrun : ∃ calls : List OutboundRequest, calls.length ≤ 1 ∧
      eventsHandler token legacy net query = catchClause e calls := by
    rcases hthrow with hb | ⟨params, message, hb, hn, rfl⟩ | ⟨params, status, data, hb, hn, hst, rfl⟩
    · exact ⟨[], by simp, eventsHandler_build_error token legacy net query e hb⟩
    · refine ⟨[⟨searchUrl, params, [("Authorization", "Bearer " ++ token)]⟩], by simp, ?_⟩
      unfold eventsHandler
      rw [hb]
      simp only [axiosGet, hn]
    · refine ⟨[⟨searchUrl, params, [("Authorization", "Bearer " ++ token)]⟩], by simp, ?_⟩
      unfold eventsHandler
      rw [hb]
      simp only [axiosGet, hn, if_neg hst]
  obtain ⟨calls, hlen, hc⟩ := hrun
  refine ⟨by rw [hc]; rfl, ⟨errorDetails e, by rw [hc]; rfl, ?_, ?_, ?_⟩, ?_, by rw [hc]; exact hlen⟩
  · intro d hd ht
    simp [errorDetails, hd, ht]
  · intro d hd ht
    simp [errorDetails, hd, ht]
  · intro hd
    simp [errorDetails, hd]
  · intro fields hf
    rw [hc] at hf
    simp only [catchClause, Json.obj.injEq] at hf
    subst hf
    exact ⟨rfl, by simp [List.lookup]⟩

/-- C6 at an upstream that answers 401 with a JSON body: status 500, and the details
are that body. -/
theorem failures_answer_500_witness :
    (eventsHandler API_TOKEN (fun _ => none)
        (fun _ => .response 401 (.obj [("error", .str "INVALID_AUTH")]))
        ⟨some "40.7", some "-74.0", none, none⟩).status = 500 ∧
    (eventsHandler API_TOKEN (fun _ => none)
        (fun _ => .response 401 (.obj [("error", .str "INVALID_AUTH")]))
        ⟨some "40.7", some "-74.0", none, none⟩).body
      = .obj [("error", .str "Failed to fetch events"),
              ("details", .obj [("error", .str "INVALID_AUTH")])] :=
  have h := failures_answer_500 API_TOKEN (fun _ => none)
    (fun _ => .response 401 (.obj [("error", .str "INVALID_AUTH")]))
    ⟨some "40.7", some "-74.0", none, none⟩
    ⟨"Request failed with status code 401", some (.obj [("error", .str "INVALID_AUTH")])⟩
    (Or.inr (Or.inr ⟨[("location.latitude", some "40.7"), ("location.longitude", some "-74.0"),
      ("expand", some "venue")], 401, .obj [("error", .str "INVALID_AUTH")], rfl, rfl,
      by decide, rfl⟩))
  ⟨h.1, rfl⟩

/-- C7. When the upstream call succeeds (a status 200..299), the route answers status
200 with the upstream payload itself as body, so in particular with the same events
in the same order; hence two runs on the same request whose upstream calls receive
the same successful response give the same result. -/
theorem success_relays_payload (token : String) (legacy : String → Option Int)
    (net net2 : Network) (query : Query) (params : Params) (status : Nat) (data : Json)
    (hb : buildParams legacy query = .ok params)
    (hs : 200 ≤ status ∧ status < 300)
    (h1 : net ⟨searchUrl, params, [("Authorization", "Bearer " ++ token)]⟩
      = .response status data)
    (h2 : net2 ⟨searchUrl, params, [("Authorization", "Bearer " ++ token)]⟩
      = .response status data) :
    eventsHandler token legacy net query
      = ⟨200, data, [⟨searchUrl, params, [("Authorization", "Bearer " ++ token)]⟩]⟩ ∧
    eventsOrEmpty (eventsHandler token legacy net query).body = eventsOrEmpty data ∧
    eventsHandler token legacy net2 query = eventsHandler token legacy net query := by
  have key : ∀ n : Network,
      n ⟨searchUrl, params, [("Authorization", "Bearer " ++ token)]⟩ = .response status data →
      eventsHandler token legacy n query
        = ⟨200, data, [⟨searchUrl, params, [("Authorization", "Bearer " ++ token)]⟩]⟩ := by
    intro n hn
    unfold eventsHandler
    rw [hb]
    simp only [axiosGet, hn, if_pos hs]
  rw [key net h1, key net2 h2]
  exact ⟨rfl, rfl, rfl⟩

/-- C7 at an upstream payload of two events: they come back in the same order. -/
theorem success_relays_payload_witness :
    eventsHandler API_TOKEN (fun _ => none)
        (fun _ => .response 200 (.obj [("events", .arr [.str "b", .str "a", .str "b"])]))
        ⟨some "40.7", some "-74.0", none, none⟩
      = ⟨200, .obj [("events", .arr [.str "b", .str "a", .str "b"])],
          [⟨searchUrl, [("location.latitude", some "40.7"),
              ("location.longitude", some "-74.0"), ("expand", some "venue")],
            [("Authorization", "Bearer " ++ API_TOKEN)]⟩]⟩ :=
  (success_relays_payload API_TOKEN (fun _ => none)
    (fun _ => .response 200 (.obj [("events", .arr [.str "b", .str "a", .str "b"])]))
    (fun _ => .response 200 (.obj [("events", .arr [.str "b", .str "a", .str "b"])]))
    ⟨some "40.7", some "-74.0", none, none⟩
    [("location.latitude", some "40.7"), ("location.longitude", some "-74.0"),
      ("expand", some "venue")]
    200 (.obj [("events", .arr [.str "b", .str "a", .str "b"])]) rfl (by decide) rfl rfl).1

/-- C8, refuted as stated: a venue whose latitude is the non-numeric string `abc` still
gets a marker, in both clients, and the marker latitude is `NaN`. -/
theorem marker_nan_counterexample :
    parseFloat "abc" = .nan ∧
    webMapMarker ⟨"e1", "Concert", "2024-03-15T19:00:00",
        some ⟨some "abc", some "-74.0", none⟩, none⟩
      = some ⟨"e1", .nan, .finite true 740 (-1), "Concert"⟩ ∧
    nativeMarker ⟨"e1", "Concert", "2024-03-15T19:00:00",
        some ⟨some "abc", some "-74.0", none⟩, none⟩
      = some ⟨"e1", .nan, .finite true 740 (-1), "Concert"⟩ := by
  decide

/-- C8, amended. In both clients an event gets a map marker exactly when its venue
exists and both the latitude and the longitude strings are present and non-empty; the
marker coordinates are then what `parseFloat` reads from those strings (`40.7` and
`-74.0` give 40.7 and -74.0).  When either string is missing or empty there is no
marker. -/
theorem marker_iff_coordinates_present (e : Event) (mk : Marker) :
    (webMapMarker e = some mk ↔
      ∃ v lat lon, e.venue = some v ∧ v.latitude = some lat ∧ v.longitude = some lon ∧
        lat ≠ "" ∧ lon ≠ "" ∧ mk = ⟨e.id, parseFloat lat, parseFloat lon, e.name⟩) ∧
    nativeMarker e = webMapMarker e ∧
    parseFloat "40.7" = .finite false 407 (-1) ∧
    parseFloat "-74.0" = .finite true 740 (-1) ∧
    ((e.venue = none ∨ ∃ v, e.venue = some v ∧ (v.latitude = none ∨ v.latitude = some "" ∨
        v.longitude = none ∨ v.longitude = some "")) → webMapMarker e = none) := by
  refine ⟨?_, ?_, by decide, by decide, ?_⟩
  rotate_left 2
  · rintro (hv | ⟨v, hv, h | h | h | h⟩) <;> obtain ⟨id, name, start, venue, logo⟩ := e <;>
      simp only at hv <;> subst hv
    · rfl
    all_goals obtain ⟨lat, lon, addr⟩ := v
    all_goals simp only at h
    all_goals subst h
    all_goals first | rfl | (cases lat <;> simp [webMapMarker, truthy]) |
      (cases lon <;> simp [webMapMarker, truthy])
  · obtain ⟨id, name, start, venue, logo⟩ := e
    cases venue with
    | none => simp [webMapMarker]
    | some v =>
      obtain ⟨lat, lon, addr⟩ := v
      cases lat with
      | none => simp [webMapMarker]
      | some lat =>
        cases lon with
        | none => simp [webMapMarker]
        | some lon =>
          by_cases hc : lat ≠ "" ∧ lon ≠ ""
          · simp only [webMapMarker, truthy_some, decide_eq_true_eq, if_pos hc]
            constructor
            · intro h
              exact ⟨_, lat, lon, rfl, rfl, rfl, hc.1, hc.2, (Option.some.inj h).symm⟩
            · rintro ⟨v, a, b, hv, ha, hb, -, -, rfl⟩
              cases hv
              cases ha
              cases hb
              rfl
          · simp only [webMapMarker, truthy_some, decide_eq_true_eq, if_neg hc]
            constructor
            · intro h
              cases h
            · rintro ⟨v, a, b, hv, ha, hb, h1, h2, -⟩
              cases hv
              cases ha
              cases hb
              exact absurd ⟨h1, h2⟩ hc
  · obtain ⟨id, name, start, venue, logo⟩ := e
    cases venue with
    | none => rfl
    | some v =>
      obtain ⟨lat, lon, addr⟩ := v
      cases lat <;> cases lon <;> simp [nativeMarker, webMapMarker, truthy]

/-- C9, the defect: the `fetchEvents` of `app.js`, which is UI code, holds the token
and sends it upstream as the query parameter `token`. -/
theorem legacy_client_sends_token :
    (legacyFetchEvents id (fun _ => none)
        (fun _ => .response 200 (.obj [("events", .arr [])]))
        ⟨some (⟨"40.7", "-74.0"⟩ : LocationCoords String), .arr [], false, "", ""⟩).calls
      = [⟨searchUrl, [("location.latitude", some "40.7"), ("location.longitude", some "-74.0"),
          ("expand", some "venue"), ("token", some "IPJJIBBTJNCCOF2TJY")], []⟩] := by
  rfl

/-- The part of C9 that holds, for `server.js`: every request the route issues carries
the token in the `Authorization` header only, its parameters are built without the
token, and two runs that differ only in the token and whose upstream calls are
answered alike give the same status and body. -/
theorem token_only_in_header (t1 t2 : String) (legacy : String → Option Int)
    (net1 net2 : Network) (query : Query)
    (hsame : ∀ params, net1 ⟨searchUrl, params, [("Authorization", "Bearer " ++ t1)]⟩
      = net2 ⟨searchUrl, params, [("Authorization", "Bearer " ++ t2)]⟩) :
    (∀ out ∈ (eventsHandler t1 legacy net1 query).calls,
      out.headers = [("Authorization", "Bearer " ++ t1)] ∧
      buildParams legacy query = .ok out.params) ∧
    (eventsHandler t1 legacy net1 query).status = (eventsHandler t2 legacy net2 query).status ∧
    (eventsHandler t1 legacy net1 query).body = (eventsHandler t2 legacy net2 query).body := by
  unfold eventsHandler
  cases hb : buildParams legacy query with
  | error e => exact ⟨by simp [catchClause], rfl, rfl⟩
  | ok params =>
    simp only [axiosGet, hsame params]
    cases net2 ⟨searchUrl, params, [("Authorization", "Bearer " ++ t2)]⟩ with
    | failure message => simp [catchClause]
    | response status data =>
      by_cases hst : 200 ≤ status ∧ status < 300
      · simp [hst]
      · simp [hst, catchClause]

/-- Two runs of the route under the tokens `A` and `B`, the upstream answering 200 to
both: the bodies agree. -/
theorem token_only_in_header_witness :
    (eventsHandler "A" (fun _ => none) (fun _ => .response 200 (.obj [("events", .arr [])]))
        ⟨some "40.7", some "-74.0", none, none⟩).body
      = (eventsHandler "B" (fun _ => none) (fun _ => .response 200 (.obj [("events", .arr [])]))
        ⟨some "40.7", some "-74.0", none, none⟩).body :=
  (token_only_in_header "A" "B" (fun _ => none)
    (fun _ => .response 200 (.obj [("events", .arr [])]))
    (fun _ => .response 200 (.obj [("events", .arr [])]))
    ⟨some "40.7", some "-74.0", none, none⟩ (fun _ => rfl)).2.2

/-- C10, the defect: when the backend answers 500 with `error` and `details` (here the
route's own answer to the date `not-a-date`), the `fetchEvents` of `index.tsx` shows
no alert and sets the events to the empty list. -/
theorem backend_500_shown_as_empty :
    fetchEvents id id
        (fun _ =>
          .response
            (eventsRoute (fun _ => none) (fun _ => .failure "unreachable")
              ⟨some "40.7", some "-74.0", none, some "not-a-date"⟩).status
            (some (eventsRoute (fun _ => none) (fun _ => .failure "unreachable")
              ⟨some "40.7", some "-74.0", none, some "not-a-date"⟩).body))
        ⟨some (⟨"40.7", "-74.0"⟩ : LocationCoords String), .arr [.str "earlier"], false, "",
          "not-a-date", false⟩
      = ⟨⟨some ⟨"40.7", "-74.0"⟩, .arr [], false, "", "not-a-date", false⟩, [],
          ["http://localhost:3001/events?latitude=40.7&longitude=-74.0&date=not-a-date"]⟩ ∧
    (eventsRoute (fun _ => none) (fun _ => .failure "unreachable")
        ⟨some "40.7", some "-74.0", none, some "not-a-date"⟩).status = 500 := by
  refine ⟨?_, rfl⟩
  rfl

/-- The part of C10 that holds: once a location is known, `fetchEvents` of `index.tsx`
always ends with the searching flag cleared, and when the `fetch` rejects or the body
is not JSON it shows the alert and leaves the events empty. -/
theorem searching_cleared_and_transport_alert (numToString : String → String)
    (enc : String → String) (backend : String → FetchReply) (st : AppState String)
    (loc : LocationCoords String) (hloc : st.location = some loc) :
    (fetchEvents numToString enc backend st).state.searching = false ∧
    ((backend (eventsUrl numToString enc loc st.category st.date) = .rejected ∨
        ∃ status, backend (eventsUrl numToString enc loc st.category st.date)
          = .response status none) →
      (fetchEvents numToString enc backend st).alerts
          = ["Failed to fetch events from backend."] ∧
        (fetchEvents numToString enc backend st).state.events = .arr []) := by
  unfold fetchEvents
  rw [hloc]
  simp only
  constructor
  · cases backend (eventsUrl numToString enc loc st.category st.date) with
    | rejected => rfl
    | response status json =>
      cases json with
      | none => rfl
      | some data =>
        simp only
        cases eventsOrEmpty data <;> rfl
  · rintro (h | ⟨status, h⟩) <;> rw [h] <;> exact ⟨rfl, rfl⟩

/-- A run of the client whose `fetch` rejects ends with the searching flag cleared. -/
theorem searching_cleared_and_transport_alert_witness :
    (fetchEvents id id (fun _ => .rejected)
      ⟨some (⟨"40.7", "-74.0"⟩ : LocationCoords String), .arr [], false, "", "", false⟩
      ).state.searching = false :=
  (searching_cleared_and_transport_alert id id (fun _ => .rejected)
    ⟨some ⟨"40.7", "-74.0"⟩, .arr [], false, "", "", false⟩ ⟨"40.7", "-74.0"⟩ rfl).1

end EventFinder
